import Mathlib

/-!
Verification of the Lab Co-Pilot backend core: the tool dispatcher
(`_execute_tool` in services/llm.py), the sandboxed code executor
(`execute_code` in services/sandbox.py), the chat orchestration loop
(`chat` in services/llm.py), the in-memory store (store.py) and the
chat router endpoints (routers/chat.py).

The embedding follows the Python source.  Python dicts with string keys
become association lists; JSON-like values become `JVal`; a raised
Python exception escaping a function becomes `Except.error`.  The
dataframe transform collaborators (services/data_engine.py: filter /
aggregate / describe / plot), the knowledge base search, the Mistral
model provider, and the Python interpreter running a sandboxed script
are external collaborators invoked through narrow contracts; they are
parameters of the embedding (`Collaborators`, `Oracle`, the script
semantics), never stubs of in-scope code.
-/

namespace LabCoPilot

/-- JSON-like values: the payloads held in tool argument maps, result
envelopes and dataframe cells. -/
inductive JVal where
  | null
  | bool (b : Bool)
  | num (n : Int)
  | str (s : String)
  | list (items : List JVal)
  | obj (fields : List (String × JVal))
deriving Inhabited

/-- One dataframe row: column name to cell value. -/
abbrev Row := List (String × JVal)

/-- A pandas DataFrame, reduced to what the core reads: its column
names and its rows. -/
structure DataFrame where
  cols : List String
  rows : List Row
deriving Inhabited

/-- A Python dict with string keys (tool arguments, result envelopes). -/
abbrev Env := List (String × JVal)

/-- `m.get(k)` / `k in m` on a Python dict. -/
def dget (m : List (String × α)) (k : String) : Option α :=
  List.lookup k m

/-- `m[k]` on a Python dict: raises `KeyError` when the key is absent. -/
def ditem (m : List (String × α)) (k : String) : Except String α :=
  match dget m k with
  | some v => Except.ok v
  | none => Except.error ("KeyError: " ++ k)

/-- Python truthiness of a JSON-like value. -/
def jtruthy : JVal → Bool
  | JVal.null => false
  | JVal.bool b => b
  | JVal.num n => n != 0
  | JVal.str s => !s.isEmpty
  | JVal.list l => !l.isEmpty
  | JVal.obj f => !f.isEmpty

/-- `fillna("")` on one cell. -/
def fillnaVal : JVal → JVal
  | JVal.null => JVal.str ""
  | v => v

/-- `df.fillna("").to_dict(orient="records")`. -/
def toRecords (d : DataFrame) : List JVal :=
  d.rows.map (fun r => JVal.obj (r.map (fun p => (p.1, fillnaVal p.2))))

/-- `df.head(n)`. -/
def dfHead (d : DataFrame) (n : Nat) : DataFrame :=
  ⟨d.cols, d.rows.take n⟩

/-- `df.copy()`: a fresh object holding the same contents. -/
def dfCopy (d : DataFrame) : DataFrame :=
  ⟨d.cols, d.rows⟩

/-- Metadata recorded for an uploaded dataset (store.data_meta entry). -/
structure Meta where
  filename : String
  columns : List String
  row_count : Nat
deriving Inhabited

/-- Metadata recorded for an uploaded document (store.document_meta entry). -/
structure DocMeta where
  name : String
  num_chunks : Nat
deriving Inhabited

/-- One conversation turn as stored in `store.conversation_history`.
User turns carry only role and content; the assistant turn added by
`chat` also carries the optional plot and table payloads.  A key that a
Python turn dict lacks is read with `.get`, giving `None`; it is
modelled as the field holding `none`. -/
structure Turn where
  role : String
  content : String
  plot_json : Option JVal
  table_data : Option JVal
  table_columns : Option JVal

/-- The process-wide in-memory store (store.py). -/
structure Store where
  data_frames : List (String × DataFrame)
  data_meta : List (String × Meta)
  active_dataset_id : Option String
  document_meta : List (String × DocMeta)
  conversation_history : List Turn

/-- `store.clear_all()` (store.py): resets every store component and
deactivates the dataset reference. -/
def clear_all (_st : Store) : Store :=
  ⟨[], [], none, [], []⟩

/-- The `response_data` dict built by `chat` (services/llm.py). -/
structure ResponseData where
  text : String
  plot_json : Option JVal
  table_data : Option JVal
  table_columns : Option JVal

/-- The initial `response_data` value. -/
def rdInit : ResponseData :=
  ⟨"", none, none, none⟩

/-- A value bound to `result` by a sandboxed script, as discriminated by
the `isinstance` checks in `execute_code`. -/
inductive PyVal where
  | pdf (d : DataFrame)
  | series (s : List (String × JVal))
  | otherVal (v : JVal)

/-- Outcome of running one sandboxed script: normal termination with
the optional `fig` and `result` bindings, an uncaught script exception
(carrying the traceback text), or expiry of the wall-clock alarm. -/
inductive ExecOutcome where
  | ok (fig : Option JVal) (result : Option PyVal)
  | raises (traceback : String)
  | timesOut

/-- One tool call produced by the model. -/
structure ToolCall where
  id : String
  fn_name : String
  arguments : String
deriving DecidableEq

/-- Messages accumulated in the prompt list sent to the model. -/
inductive Message where
  | plain (role : String) (content : String)
  | assistantCalls (calls : List ToolCall)
  | toolMsg (name : String) (content : String) (tool_call_id : String)

/-- The assistant message returned by the first model call. -/
structure FirstResponse where
  content : Option String
  tool_calls : Option (List ToolCall)

/-- The model provider and `json.loads`, as observed by one `chat`
invocation: the first (tool-offering) completion, the second
(synthesis) completion, and argument-string parsing.  `Except.error`
models the corresponding Python call raising. -/
structure Oracle where
  firstCall : List Message → Except String FirstResponse
  secondCall : List Message → Except String (Option String)
  parseArgs : String → Except String Env

/-- The external collaborators of the core (spec section 6): the
dataframe transforms of services/data_engine.py, knowledge-base search,
plotly serialization, json serialization, the interpreter running a
sandboxed script, and the prompt renderings of pandas internals. -/
structure Collaborators where
  filter_data : DataFrame → JVal → DataFrame
  aggregate_data : DataFrame → JVal → JVal → JVal → DataFrame
  describe_data : DataFrame → Env
  generate_plot : DataFrame → JVal → JVal → JVal → JVal → JVal
  kb_search : JVal → JVal → JVal
  pio_to_json : JVal → JVal
  json_dumps : Env → String
  py_exec : JVal → DataFrame → ExecOutcome
  render_dataset_info : DataFrame → Meta → String
  render_doc_info : List String → String

/-- The timeout message of the sandbox (services/sandbox.py). -/
def timeoutMessage : String :=
  "Code execution timed out (10s limit)."

/-- The default `timeout_seconds` of `execute_code`. -/
def defaultTimeoutSeconds : Nat := 10

/-- The nested table envelope that `execute_code` builds when the
script bound a DataFrame to `result`: preview capped at 100 rows, full
row count reported. -/
def sandboxTableResult (res : DataFrame) : JVal :=
  JVal.obj [("data", JVal.list (toRecords (dfHead res 100))),
            ("columns", JVal.list (res.cols.map JVal.str)),
            ("row_count", JVal.num res.rows.length)]

/-- The `output` dict of `execute_code` for a given execution outcome:
always the three keys `result`, `plot_json`, `error`. -/
def mkExecOutput (C : Collaborators) (outcome : ExecOutcome) : Env :=
  match outcome with
  | ExecOutcome.timesOut =>
      [("result", JVal.null), ("plot_json", JVal.null),
       ("error", JVal.str timeoutMessage)]
  | ExecOutcome.raises tb =>
      [("result", JVal.null), ("plot_json", JVal.null),
       ("error", JVal.str tb)]
  | ExecOutcome.ok fig res =>
      let pj : JVal :=
        match fig with
        | none => JVal.null
        | some f => C.pio_to_json f
      let rv : JVal :=
        match res with
        | none => JVal.null
        | some (PyVal.pdf d) => sandboxTableResult d
        | some (PyVal.series s) => JVal.obj s
        | some (PyVal.otherVal v) => v
      [("result", rv), ("plot_json", pj), ("error", JVal.null)]

/-- `execute_code` (services/sandbox.py): runs the script against a
copy of the dataframe inside the restricted namespace and returns the
output dict.  The wall-clock alarm is abstracted into the execution
outcome (`ExecOutcome.timesOut`); the `timeout_seconds` parameter is
the alarm duration, 10 by default at the only call site. -/
def execute_code (C : Collaborators) (code : JVal) (df : DataFrame)
    (_timeout_seconds : Nat) : Env :=
  mkExecOutput C (C.py_exec code (dfCopy df))

/-- The soft-error envelope returned when a tool needs a dataset and
none is active. -/
def noDatasetError : Env :=
  [("error", JVal.str "No dataset loaded.")]

/-- The Python guard `if not store.active_dataset_id`: the id merged
with its truthiness (a `None` or empty id both fail the guard). -/
def activeId (st : Store) : Option String :=
  match st.active_dataset_id with
  | none => none
  | some fid => if fid.isEmpty then none else some fid

/-- The table envelope of the `filter_data` branch of `_execute_tool`:
preview capped at 50 rows, full row count reported. -/
def filterEnvelope (result : DataFrame) : Env :=
  [("data", JVal.list (toRecords (dfHead result 50))),
   ("columns", JVal.list (result.cols.map JVal.str)),
   ("row_count", JVal.num result.rows.length)]

/-- The table envelope of the `aggregate_data` branch of
`_execute_tool`: all rows of the aggregation result, no preview cap,
full row count reported. -/
def aggregateEnvelope (result : DataFrame) : Env :=
  [("data", JVal.list (toRecords result)),
   ("columns", JVal.list (result.cols.map JVal.str)),
   ("row_count", JVal.num result.rows.length)]

/-- `_execute_tool` (services/llm.py): string-keyed dispatch over the
six built-in tools.  `Except.error` models an uncaught Python exception
(a `KeyError` from a required-argument or store lookup). -/
def execTool (C : Collaborators) (st : Store) (name : String)
    (args : Env) : Except String Env :=
  if name = "filter_data" then
    match activeId st with
    | none => Except.ok noDatasetError
    | some fid =>
      match ditem st.data_frames fid with
      | Except.error e => Except.error e
      | Except.ok df =>
        match ditem args "conditions" with
        | Except.error e => Except.error e
        | Except.ok conditions =>
          Except.ok (filterEnvelope (C.filter_data df conditions))
  else if name = "aggregate_data" then
    match activeId st with
    | none => Except.ok noDatasetError
    | some fid =>
      match ditem st.data_frames fid with
      | Except.error e => Except.error e
      | Except.ok df =>
        match ditem args "group_column" with
        | Except.error e => Except.error e
        | Except.ok g =>
          match ditem args "value_column" with
          | Except.error e => Except.error e
          | Except.ok v =>
            let f := (dget args "agg_func").getD (JVal.str "mean")
            Except.ok (aggregateEnvelope (C.aggregate_data df g v f))
  else if name = "describe_data" then
    match activeId st with
    | none => Except.ok noDatasetError
    | some fid =>
      match ditem st.data_frames fid with
      | Except.error e => Except.error e
      | Except.ok df => Except.ok (C.describe_data df)
  else if name = "generate_plot" then
    match activeId st with
    | none => Except.ok noDatasetError
    | some fid =>
      match ditem st.data_frames fid with
      | Except.error e => Except.error e
      | Except.ok df =>
        match ditem args "plot_type" with
        | Except.error e => Except.error e
        | Except.ok pt =>
          match ditem args "x_column" with
          | Except.error e => Except.error e
          | Except.ok x =>
            let y := (dget args "y_column").getD JVal.null
            let t := (dget args "title").getD JVal.null
            Except.ok [("plot_json", C.generate_plot df pt x y t),
                       ("plot_type", pt)]
  else if name = "search_documents" then
    match ditem args "query" with
    | Except.error e => Except.error e
    | Except.ok q =>
      let k := (dget args "top_k").getD (JVal.num 5)
      Except.ok [("results", C.kb_search q k)]
  else if name = "execute_pandas_code" then
    match activeId st with
    | none => Except.ok noDatasetError
    | some fid =>
      match ditem st.data_frames fid with
      | Except.error e => Except.error e
      | Except.ok df =>
        match ditem args "code" with
        | Except.error e => Except.error e
        | Except.ok code =>
          Except.ok (execute_code C code df defaultTimeoutSeconds)
  else
    Except.ok [("error", JVal.str ("Unknown tool: " ++ name))]

/-- `_execute_tool` with the store threaded through: the Python body
performs no assignment to any store component, so every branch returns
the store it was given. -/
def execToolS (C : Collaborators) (st : Store) (name : String)
    (args : Env) : Except String Env × Store :=
  (execTool C st name args, st)

/-- The base text of `_build_system_prompt`, before the dataset and
document sections. -/
def basePromptText : String :=
  "You are Lab Co-Pilot, a helpful assistant for laboratory researchers.\n" ++
  "You help users analyze experimental data, create visualizations, " ++
  "and answer questions about uploaded research documents.\n"

/-- `_build_system_prompt` (services/llm.py): the role text, plus the
active dataset description when an active id is set and present in
`data_frames`, plus the uploaded document names when any exist. -/
def build_system_prompt (C : Collaborators) (st : Store) : String :=
  let dataset_info : String :=
    match activeId st with
    | none => ""
    | some fid =>
      match dget st.data_frames fid with
      | none => ""
      | some df =>
        C.render_dataset_info df ((dget st.data_meta fid).getD default)
  let doc_names := st.document_meta.map (fun p => p.2.name)
  let doc_info : String :=
    if doc_names.isEmpty then "" else C.render_doc_info doc_names
  basePromptText ++ dataset_info ++ doc_info

/-- The history window read when building a prompt: Python
`store.conversation_history[-20:]`. -/
def historyWindow : Nat := 20

/-- Python `l[-n:]`: the last `n` elements of a list. -/
def lastN (n : Nat) (l : List α) : List α :=
  l.drop (l.length - n)

/-- The prompt message list built by `chat` before the first model
call: the system message, the most recent 20 history turns, then the
new user message. -/
def buildMessages (C : Collaborators) (st : Store) (user_message : String) :
    List Message :=
  Message.plain "system" (build_system_prompt C st)
    :: (lastN historyWindow st.conversation_history).map
        (fun h => Message.plain h.role h.content)
    ++ [Message.plain "user" user_message]

/-- The apologetic error text `chat` folds a caught exception into. -/
def errText (e : String) : String :=
  "I encountered an error: " ++ e

/-- The per-tool-result folding step of the chat loop (services/llm.py,
the body of the tool-call loop): a truthy `plot_json` overwrites the
chart; a list-valued `data` key overwrites the table (with the
envelope's `columns`, defaulting to the empty list); a dict-valued
`result` carrying a `data` key overwrites the table again with the
nested fields. -/
def applyToolResult (rd : ResponseData) (tool_result : Env) : ResponseData :=
  let rd1 :=
    match dget tool_result "plot_json" with
    | some v => if jtruthy v then { rd with plot_json := some v } else rd
    | none => rd
  let rd2 :=
    match dget tool_result "data" with
    | some (JVal.list l) =>
      { rd1 with table_data := some (JVal.list l),
                 table_columns :=
                   some ((dget tool_result "columns").getD (JVal.list [])) }
    | _ => rd1
  match dget tool_result "result" with
  | some (JVal.obj fields) =>
    match dget fields "data" with
    | some d =>
      { rd2 with table_data := some d,
                 table_columns :=
                   some ((dget fields "columns").getD (JVal.list [])) }
    | none => rd2
  | _ => rd2

/-- One tool call of the loop: `json.loads` on the argument string,
then `_execute_tool`; either step raising propagates. -/
def dispatchCall (C : Collaborators) (O : Oracle) (st : Store)
    (tc : ToolCall) : Except String Env :=
  match O.parseArgs tc.arguments with
  | Except.error e => Except.error e
  | Except.ok fn_args => execTool C st tc.fn_name fn_args

/-- The tool-call loop of `chat`: processes the calls in order,
folding each result envelope into `response_data` and appending the
serialized result as a tool message; an exception stops the loop and
is reported (the partially-updated `response_data` is kept, as the
Python dict is mutated in place). -/
def runToolLoop (C : Collaborators) (O : Oracle) (st : Store) :
    ResponseData → List Message → List ToolCall →
    ResponseData × List Message × Option String
  | rd, msgs, [] => (rd, msgs, none)
  | rd, msgs, tc :: rest =>
    match dispatchCall C O st tc with
    | Except.error e => (rd, msgs, some e)
    | Except.ok tool_result =>
      runToolLoop C O st (applyToolResult rd tool_result)
        (msgs ++ [Message.toolMsg tc.fn_name (C.json_dumps tool_result) tc.id])
        rest

/-- The user turn appended to history at the start of `chat`. -/
def mkUserTurn (msg : String) : Turn :=
  ⟨"user", msg, none, none, none⟩

/-- The assistant turn appended to history at the end of `chat`. -/
def mkAssistantTurn (rd : ResponseData) : Turn :=
  ⟨"assistant", rd.text, rd.plot_json, rd.table_data, rd.table_columns⟩

/-- The store after `chat` appends the user turn (before any model
call). -/
def appendUser (st : Store) (msg : String) : Store :=
  { st with conversation_history :=
      st.conversation_history ++ [mkUserTurn msg] }

/-- The error message `_get_client` raises when no API key is set. -/
def mistralKeyMessage : String :=
  "MISTRAL_API_KEY is not set. Add it to backend/.env"

/-- `chat` (services/llm.py): acquires the client (raising when the
API key is empty), builds the prompt, records the user turn, performs
the first model call, drives the tool loop and the second call inside
one exception handler that folds any fault into the response text, and
finally records the assistant turn.  The returned pair is the function
result (or the exception it raises) together with the global store
after the call. -/
def chat (C : Collaborators) (O : Oracle) (api_key : String) (st : Store)
    (user_message : String) : Except String ResponseData × Store :=
  if api_key = "" then
    (Except.error mistralKeyMessage, st)
  else
    let messages := buildMessages C st user_message
    let st1 := appendUser st user_message
    let rd : ResponseData :=
      match O.firstCall messages with
      | Except.error e => { rdInit with text := errText e }
      | Except.ok resp =>
        match resp.tool_calls with
        | none => { rdInit with text := resp.content.getD "" }
        | some [] => { rdInit with text := resp.content.getD "" }
        | some calls =>
          match runToolLoop C O st1 rdInit
              (messages ++ [Message.assistantCalls calls]) calls with
          | (rd1, _, some e) => { rd1 with text := errText e }
          | (rd1, msgs1, none) =>
            match O.secondCall msgs1 with
            | Except.error e => { rd1 with text := errText e }
            | Except.ok c => { rd1 with text := c.getD "" }
    (Except.ok rd,
     { st1 with conversation_history :=
         st1.conversation_history ++ [mkAssistantTurn rd] })

/-- One history item returned by the history endpoint. -/
structure ChatHistoryItem where
  role : String
  content : String
  plot_json : Option JVal
  table_data : Option JVal
  table_columns : Option JVal

/-- `get_history` (routers/chat.py): the full conversation history, in
order. -/
def get_history (st : Store) : List ChatHistoryItem :=
  st.conversation_history.map
    (fun h => ⟨h.role, h.content, h.plot_json, h.table_data, h.table_columns⟩)

/-- `clear_history` (routers/chat.py, the POST /clear endpoint): clears
the conversation history and nothing else. -/
def clear_history (st : Store) : Store :=
  { st with conversation_history := [] }

/-- The chart this envelope writes into the response, if any: a present
and truthy `plot_json`. -/
def chartOf (e : Env) : Option JVal :=
  match dget e "plot_json" with
  | some v => if jtruthy v then some v else none
  | none => none

/-- The `(table_data, table_columns)` pair this envelope writes into
the response, if any: the nested `result` table fields when present,
otherwise a list-valued `data` key. -/
def tableOf (e : Env) : Option (JVal × JVal) :=
  let fromData : Option (JVal × JVal) :=
    match dget e "data" with
    | some (JVal.list l) =>
      some (JVal.list l, (dget e "columns").getD (JVal.list []))
    | _ => none
  match dget e "result" with
  | some (JVal.obj fields) =>
    match dget fields "data" with
    | some d => some (d, (dget fields "columns").getD (JVal.list []))
    | none => fromData
  | _ => fromData

/-- Last-write-wins combination of an optional new value with the
current one. -/
def lww (newVal old : Option α) : Option α :=
  match newVal with
  | some v => some v
  | none => old

/-- The number of previewed rows in a table envelope. -/
def envDataLength (e : Env) : Nat :=
  match dget e "data" with
  | some (JVal.list l) => l.length
  | _ => 0

/-! Reference-semantics model of the sandbox dataframe copy.  Python
dataframes are heap objects; `store.data_frames` holds references.  The
heap is a list of dataframe contents, a reference an index into it.  A
script is modelled by what it does to the contents of the object bound
to `df` plus its execution outcome. -/

/-- The heap of dataframe objects. -/
abbrev Heap := List DataFrame

/-- The store's dataframe table under reference semantics, with the
active id. -/
structure RefStore where
  frame_refs : List (String × Nat)
  active_dataset_id : Option String

/-- `execute_code` under reference semantics: `df.copy()` allocates a
fresh object holding the same contents; the script then reads and
mutates the object its `df` binding points at, which is the fresh
copy. -/
def execute_code_refs (C : Collaborators)
    (σ : DataFrame → DataFrame × ExecOutcome) (heap : Heap) (ref : Nat) :
    Heap × Env :=
  let copyRef := heap.length
  let heap1 := heap ++ [heap.getD ref default]
  let pair := σ (heap1.getD copyRef default)
  (heap1.set copyRef pair.1, mkExecOutput C pair.2)

/-- The `execute_pandas_code` branch of `_execute_tool` under reference
semantics: the active-dataset guard, the store and argument lookups,
then the sandbox call on the stored dataframe's reference. -/
def execToolRefs (C : Collaborators)
    (σ : DataFrame → DataFrame × ExecOutcome) (rs : RefStore) (heap : Heap)
    (args : Env) : RefStore × Heap × Except String Env :=
  match rs.active_dataset_id with
  | none => (rs, heap, Except.ok noDatasetError)
  | some fid =>
    if fid.isEmpty then (rs, heap, Except.ok noDatasetError)
    else
      match dget rs.frame_refs fid with
      | none => (rs, heap, Except.error ("KeyError: " ++ fid))
      | some r =>
        match dget args "code" with
        | none => (rs, heap, Except.error "KeyError: code")
        | some _ =>
          let pair := execute_code_refs C σ heap r
          (rs, pair.1, Except.ok pair.2)

/-- Well-formed reference store: every stored reference points into the
heap. -/
def refsWF (rs : RefStore) (heap : Heap) : Prop :=
  ∀ fid r, dget rs.frame_refs fid = some r → r < heap.length

/-- The active-dataset invariant the upload and clear flows maintain:
an active id, when set, is a key of `data_frames`. -/
def storeOk (st : Store) : Prop :=
  ∀ fid, activeId st = some fid → (dget st.data_frames fid).isSome = true

/-- The required parameters of each tool, from the `TOOLS` schema
declarations (services/llm.py); `_execute_tool` reads exactly these
with a raising `args[...]` lookup. -/
def requiredKeys (name : String) : List String :=
  if name = "filter_data" then ["conditions"]
  else if name = "aggregate_data" then ["group_column", "value_column"]
  else if name = "generate_plot" then ["plot_type", "x_column"]
  else if name = "search_documents" then ["query"]
  else if name = "execute_pandas_code" then ["code"]
  else []

/-- The argument map contains every required parameter of the named
tool. -/
def hasRequiredArgs (name : String) (args : Env) : Prop :=
  ∀ k ∈ requiredKeys name, (dget args k).isSome = true

/-- The six tool names declared in `TOOLS`. -/
def knownToolNames : List String :=
  ["filter_data", "aggregate_data", "describe_data", "generate_plot",
   "search_documents", "execute_pandas_code"]

/-! Concrete instances used by counterexamples and witnesses. -/

/-- A two-column, one-row dataset. -/
def dfAB : DataFrame :=
  ⟨["gene", "expr"], [[("gene", JVal.str "BRCA1"), ("expr", JVal.num 2)]]⟩

/-- Metadata of `dfAB`. -/
def metaAB : Meta :=
  ⟨"genes.csv", ["gene", "expr"], 1⟩

/-- A 51-row aggregation result. -/
def bigDF : DataFrame :=
  ⟨["g"], List.replicate 51 [("g", JVal.num 1)]⟩

/-- Simple total collaborators. -/
def trivCollab : Collaborators where
  filter_data := fun df _ => df
  aggregate_data := fun df _ _ _ => df
  describe_data := fun _ => [("count", JVal.num 1)]
  generate_plot := fun _ _ x _ _ => x
  kb_search := fun _ _ => JVal.list []
  pio_to_json := fun f => f
  json_dumps := fun _ => ""
  py_exec := fun _ _ => ExecOutcome.ok none none
  render_dataset_info := fun _ _ => ""
  render_doc_info := fun _ => ""

/-- Collaborators whose aggregation returns the 51-row result. -/
def aggCollab : Collaborators :=
  { trivCollab with aggregate_data := fun _ _ _ _ => bigDF }

/-- The `generate_plot` envelope produced under `trivCollab` for x
column `c` (its generate_plot collaborator returns the x column). -/
def plotEnv (c : String) : Env :=
  [("plot_json", JVal.str c), ("plot_type", JVal.str "bar")]

/-- A store with one active dataset and empty history. -/
def stActive : Store :=
  ⟨[("d1", dfAB)], [("d1", metaAB)], some "d1", [], []⟩

/-- A store with one active dataset and one recorded user turn. -/
def stActiveHist : Store :=
  ⟨[("d1", dfAB)], [("d1", metaAB)], some "d1", [], [mkUserTurn "hi"]⟩

/-- An oracle whose first completion is plain text. -/
def trivOracle : Oracle where
  firstCall := fun _ => Except.ok ⟨some "hello", none⟩
  secondCall := fun _ => Except.ok (some "done")
  parseArgs := fun _ => Except.ok []

/-- An oracle issuing two `generate_plot` calls around a `filter_data`
call, then a textual synthesis. -/
def threeCallOracle : Oracle where
  firstCall := fun _ =>
    Except.ok ⟨none, some [⟨"id1", "generate_plot", "a1"⟩,
                           ⟨"id2", "filter_data", "a2"⟩,
                           ⟨"id3", "generate_plot", "a3"⟩]⟩
  secondCall := fun _ => Except.ok (some "summary")
  parseArgs := fun s =>
    if s = "a1" then
      Except.ok [("plot_type", JVal.str "bar"), ("x_column", JVal.str "A")]
    else if s = "a2" then
      Except.ok [("conditions", JVal.str "expr > 0")]
    else
      Except.ok [("plot_type", JVal.str "bar"), ("x_column", JVal.str "B")]

/-- A one-entry reference store pointing at heap index 0. -/
def rsOne : RefStore :=
  ⟨[("d1", 0)], some "d1"⟩

/-- A script that replaces its dataframe's contents entirely. -/
def wipeScript : DataFrame → DataFrame × ExecOutcome :=
  fun _ => (⟨[], []⟩, ExecOutcome.ok none none)

/-- Collaborators whose sandbox interpreter always hits the deadline. -/
def timeoutCollab : Collaborators :=
  { trivCollab with py_exec := fun _ _ => ExecOutcome.timesOut }

/-! Helper lemmas. -/

theorem toRecords_length (d : DataFrame) :
    (toRecords d).length = d.rows.length := by
  simp [toRecords]

theorem ditem_of_dget (m : List (String × α)) (k : String) (v : α)
    (h : dget m k = some v) : ditem m k = Except.ok v := by
  simp [ditem, h]

theorem take_concat_self (l : List α) (a : α) :
    (l ++ [a]).take l.length = l := by
  simp [List.take_left]

theorem set_concat_self (l : List α) (a b : α) :
    (l ++ [a]).set l.length b = l ++ [b] := by
  induction l with
  | nil => rfl
  | cons x xs ih =>
    show x :: ((xs ++ [a]).set xs.length b) = x :: (xs ++ [b])
    rw [ih]

theorem getD_concat_self (l : List α) (a d : α) :
    (l ++ [a]).getD l.length d = a := by
  simp [List.getD, List.getElem?_concat_length]

theorem getD_append_left2 (l₁ : List α) (i : Nat) (h : i < l₁.length)
    (l₂ : List α) (d : α) : (l₁ ++ l₂).getD i d = l₁.getD i d := by
  simp [List.getD, List.getElem?_append_left h]

/-! Branch-unfolding equations for the dispatch if-chain. -/

theorem execTool_filter (C : Collaborators) (st : Store) (args : Env) :
    execTool C st "filter_data" args =
      (match activeId st with
       | none => Except.ok noDatasetError
       | some fid =>
         match ditem st.data_frames fid with
         | Except.error e => Except.error e
         | Except.ok df =>
           match ditem args "conditions" with
           | Except.error e => Except.error e
           | Except.ok conditions =>
             Except.ok (filterEnvelope (C.filter_data df conditions))) := rfl

theorem execTool_aggregate (C : Collaborators) (st : Store) (args : Env) :
    execTool C st "aggregate_data" args =
      (match activeId st with
       | none => Except.ok noDatasetError
       | some fid =>
         match ditem st.data_frames fid with
         | Except.error e => Except.error e
         | Except.ok df =>
           match ditem args "group_column" with
           | Except.error e => Except.error e
           | Except.ok g =>
             match ditem args "value_column" with
             | Except.error e => Except.error e
             | Except.ok v =>
               Except.ok (aggregateEnvelope (C.aggregate_data df g v
                 ((dget args "agg_func").getD (JVal.str "mean"))))) := rfl

theorem execTool_describe (C : Collaborators) (st : Store) (args : Env) :
    execTool C st "describe_data" args =
      (match activeId st with
       | none => Except.ok noDatasetError
       | some fid =>
         match ditem st.data_frames fid with
         | Except.error e => Except.error e
         | Except.ok df => Except.ok (C.describe_data df)) := rfl

theorem execTool_plot (C : Collaborators) (st : Store) (args : Env) :
    execTool C st "generate_plot" args =
      (match activeId st with
       | none => Except.ok noDatasetError
       | some fid =>
         match ditem st.data_frames fid with
         | Except.error e => Except.error e
         | Except.ok df =>
           match ditem args "plot_type" with
           | Except.error e => Except.error e
           | Except.ok pt =>
             match ditem args "x_column" with
             | Except.error e => Except.error e
             | Except.ok x =>
               Except.ok [("plot_json", C.generate_plot df pt x
                   ((dget args "y_column").getD JVal.null)
                   ((dget args "title").getD JVal.null)),
                 ("plot_type", pt)]) := rfl

theorem execTool_search (C : Collaborators) (st : Store) (args : Env) :
    execTool C st "search_documents" args =
      (match ditem args "query" with
       | Except.error e => Except.error e
       | Except.ok q =>
         Except.ok [("results",
           C.kb_search q ((dget args "top_k").getD (JVal.num 5)))]) := rfl

theorem execTool_pandas (C : Collaborators) (st : Store) (args : Env) :
    execTool C st "execute_pandas_code" args =
      (match activeId st with
       | none => Except.ok noDatasetError
       | some fid =>
         match ditem st.data_frames fid with
         | Except.error e => Except.error e
         | Except.ok df =>
           match ditem args "code" with
           | Except.error e => Except.error e
           | Except.ok code =>
             Except.ok (execute_code C code df defaultTimeoutSeconds)) := rfl

/-- Claim C1 counterexample: with a dataset active, dispatching
`filter_data` with an empty argument map raises a `KeyError` on the
required `conditions` argument, so `_execute_tool` does not return an
envelope for every tool name and argument map. -/
theorem dispatch_raises_cex :
    execTool trivCollab stActive "filter_data" [] =
      Except.error "KeyError: conditions" ∧
    (execTool trivCollab stActive "filter_data" []).isOk = false :=
  ⟨rfl, rfl⟩

/-- Claim C1 (amended): provided the argument map contains the named
tool's required parameters and the active id, when set, is a key of
`data_frames`, `_execute_tool` never raises: it returns a result
envelope for every tool name. -/
theorem dispatch_no_raise (C : Collaborators) (st : Store) (name : String)
    (args : Env) (hst : storeOk st) (hargs : hasRequiredArgs name args) :
    (execTool C st name args).isOk = true := by
  by_cases h1 : name = "filter_data"
  · subst h1
    rw [execTool_filter]
    cases hact : activeId st with
    | none => rfl
    | some fid =>
      obtain ⟨df, hdfv⟩ := Option.isSome_iff_exists.mp (hst fid hact)
      obtain ⟨cv, hcv⟩ := Option.isSome_iff_exists.mp
        (hargs "conditions" (by simp [requiredKeys]))
      simp [ditem_of_dget _ _ _ hdfv, ditem_of_dget _ _ _ hcv, Except.isOk, Except.toBool]
  by_cases h2 : name = "aggregate_data"
  · subst h2
    rw [execTool_aggregate]
    cases hact : activeId st with
    | none => rfl
    | some fid =>
      obtain ⟨df, hdfv⟩ := Option.isSome_iff_exists.mp (hst fid hact)
      obtain ⟨gv, hgv⟩ := Option.isSome_iff_exists.mp
        (hargs "group_column" (by simp [requiredKeys]))
      obtain ⟨vv, hvv⟩ := Option.isSome_iff_exists.mp
        (hargs "value_column" (by simp [requiredKeys]))
      simp [ditem_of_dget _ _ _ hdfv, ditem_of_dget _ _ _ hgv,
        ditem_of_dget _ _ _ hvv, Except.isOk, Except.toBool]
  by_cases h3 : name = "describe_data"
  · subst h3
    rw [execTool_describe]
    cases hact : activeId st with
    | none => rfl
    | some fid =>
      obtain ⟨df, hdfv⟩ := Option.isSome_iff_exists.mp (hst fid hact)
      simp [ditem_of_dget _ _ _ hdfv, Except.isOk, Except.toBool]
  by_cases h4 : name = "generate_plot"
  · subst h4
    rw [execTool_plot]
    cases hact : activeId st with
    | none => rfl
    | some fid =>
      obtain ⟨df, hdfv⟩ := Option.isSome_iff_exists.mp (hst fid hact)
      obtain ⟨pv, hpv⟩ := Option.isSome_iff_exists.mp
        (hargs "plot_type" (by simp [requiredKeys]))
      obtain ⟨xv, hxv⟩ := Option.isSome_iff_exists.mp
        (hargs "x_column" (by simp [requiredKeys]))
      simp [ditem_of_dget _ _ _ hdfv, ditem_of_dget _ _ _ hpv,
        ditem_of_dget _ _ _ hxv, Except.isOk, Except.toBool]
  by_cases h5 : name = "search_documents"
  · subst h5
    rw [execTool_search]
    obtain ⟨qv, hqv⟩ := Option.isSome_iff_exists.mp
      (hargs "query" (by simp [requiredKeys]))
    simp [ditem_of_dget _ _ _ hqv, Except.isOk, Except.toBool]
  by_cases h6 : name = "execute_pandas_code"
  · subst h6
    rw [execTool_pandas]
    cases hact : activeId st with
    | none => rfl
    | some fid =>
      obtain ⟨df, hdfv⟩ := Option.isSome_iff_exists.mp (hst fid hact)
      obtain ⟨cv, hcv⟩ := Option.isSome_iff_exists.mp
        (hargs "code" (by simp [requiredKeys]))
      simp [ditem_of_dget _ _ _ hdfv, ditem_of_dget _ _ _ hcv, Except.isOk, Except.toBool]
  simp [execTool, h1, h2, h3, h4, h5, h6, Except.isOk, Except.toBool]

/-- Witness for the amended C1 at a concrete store and argument map. -/
theorem dispatch_no_raise_witness :
    (execTool trivCollab stActive "filter_data"
      [("conditions", JVal.str "expr > 0")]).isOk = true :=
  dispatch_no_raise trivCollab stActive "filter_data"
    [("conditions", JVal.str "expr > 0")]
    (by intro fid h; simp [activeId, stActive] at h; obtain ⟨-, rfl⟩ := h; rfl)
    (by intro k hk; simp [requiredKeys] at hk; subst hk; rfl)

/-- Claim C2: `execute_code` always returns control with the output
dict holding exactly the keys `result`, `plot_json` and `error`; the
output is determined by the script's execution outcome; on deadline
expiry the error field holds the fixed timeout message, on any other
fault it holds the captured traceback text, and on normal termination
it is `None`; the timeout message names the 10-second limit and the
default deadline is 10 seconds. -/
theorem execute_code_total (C : Collaborators) (code : JVal) (df : DataFrame)
    (t : Nat) (tb : String) (fig : Option JVal) (res : Option PyVal) :
    execute_code C code df t = mkExecOutput C (C.py_exec code (dfCopy df)) ∧
    (execute_code C code df t).map Prod.fst =
      ["result", "plot_json", "error"] ∧
    dget (mkExecOutput C ExecOutcome.timesOut) "error" =
      some (JVal.str timeoutMessage) ∧
    dget (mkExecOutput C (ExecOutcome.raises tb)) "error" =
      some (JVal.str tb) ∧
    dget (mkExecOutput C (ExecOutcome.ok fig res)) "error" = some JVal.null ∧
    timeoutMessage = "Code execution timed out (10s limit)." ∧
    defaultTimeoutSeconds = 10 := by
  refine ⟨rfl, ?_, rfl, rfl, rfl, rfl, rfl⟩
  show (mkExecOutput C (C.py_exec code (dfCopy df))).map Prod.fst = _
  cases C.py_exec code (dfCopy df) <;> rfl

/-- Claim C3 counterexample: after the exposed clear endpoint
(`POST /clear`, routers/chat.py) runs, the history is empty but the
active dataset reference is NOT deactivated, and `filter_data` then
succeeds with a table envelope instead of failing with the no-dataset
error. -/
theorem clear_endpoint_cex :
    (clear_history stActiveHist).conversation_history = [] ∧
    (clear_history stActiveHist).active_dataset_id = some "d1" ∧
    some "d1" ≠ (none : Option String) ∧
    execTool trivCollab (clear_history stActiveHist) "filter_data"
      [("conditions", JVal.str "expr > 0")] =
      Except.ok (filterEnvelope dfAB) ∧
    dget (filterEnvelope dfAB) "error" = none :=
  ⟨rfl, rfl, by decide, rfl, rfl⟩

/-- Claim C3 (amended): the clear operation exposed to the caller
empties the history (a subsequent history read returns an empty
sequence) but leaves the dataset reference and the stored dataframes
untouched; only the store-level `clear_all` (not exposed over HTTP)
additionally deactivates the dataset reference, after which every tool
requiring a dataset fails with the no-dataset error envelope. -/
theorem clear_endpoint_amended (C : Collaborators) (st : Store) (args : Env) :
    (clear_history st).conversation_history = [] ∧
    get_history (clear_history st) = [] ∧
    (clear_history st).active_dataset_id = st.active_dataset_id ∧
    (clear_history st).data_frames = st.data_frames ∧
    (clear_all st).conversation_history = [] ∧
    (clear_all st).active_dataset_id = none ∧
    execTool C (clear_all st) "filter_data" args = Except.ok noDatasetError ∧
    execTool C (clear_all st) "aggregate_data" args =
      Except.ok noDatasetError ∧
    execTool C (clear_all st) "describe_data" args =
      Except.ok noDatasetError ∧
    execTool C (clear_all st) "generate_plot" args =
      Except.ok noDatasetError ∧
    execTool C (clear_all st) "execute_pandas_code" args =
      Except.ok noDatasetError :=
  ⟨rfl, rfl, rfl, rfl, rfl, rfl, rfl, rfl, rfl, rfl, rfl⟩

/-- Claim C4 counterexample: an in-chat `aggregate_data` dispatch whose
aggregation result has 51 rows returns all 51 rows in the envelope —
the 50-row preview cap is not applied to this tool. -/
theorem table_cap_cex :
    execTool aggCollab stActive "aggregate_data"
      [("group_column", JVal.str "g"), ("value_column", JVal.str "g")] =
      Except.ok (aggregateEnvelope bigDF) ∧
    envDataLength (aggregateEnvelope bigDF) = 51 ∧
    ¬(envDataLength (aggregateEnvelope bigDF) ≤ 50) :=
  ⟨rfl, rfl, by decide⟩

/-- Claim C4 (amended): `filter_data` envelopes cap the previewed rows
at 50 and sandbox DataFrame results cap them at 100, while
`aggregate_data` envelopes return every row of the aggregation result
uncapped; in all three envelopes the `row_count` field equals the
untruncated number of rows of the full result. -/
theorem table_cap_amended (C : Collaborators) (st : Store) (args : Env)
    (result : DataFrame) (fid : String) (df : DataFrame)
    (cond g v : JVal)
    (hact : activeId st = some fid)
    (hdf : dget st.data_frames fid = some df)
    (hcond : dget args "conditions" = some cond)
    (hg : dget args "group_column" = some g)
    (hv : dget args "value_column" = some v) :
    envDataLength (filterEnvelope result) ≤ 50 ∧
    dget (filterEnvelope result) "row_count" =
      some (JVal.num result.rows.length) ∧
    envDataLength (aggregateEnvelope result) = result.rows.length ∧
    dget (aggregateEnvelope result) "row_count" =
      some (JVal.num result.rows.length) ∧
    (toRecords (dfHead result 100)).length ≤ 100 ∧
    (match sandboxTableResult result with
      | JVal.obj fields => dget fields "row_count"
      | _ => none) = some (JVal.num result.rows.length) ∧
    execTool C st "filter_data" args =
      Except.ok (filterEnvelope (C.filter_data df cond)) ∧
    execTool C st "aggregate_data" args =
      Except.ok (aggregateEnvelope (C.aggregate_data df g v
        ((dget args "agg_func").getD (JVal.str "mean")))) ∧
    (∀ code dfx,
      C.py_exec code (dfCopy dfx) =
        ExecOutcome.ok none (some (PyVal.pdf result)) →
      dget (execute_code C code dfx defaultTimeoutSeconds) "result" =
        some (sandboxTableResult result)) := by
  refine ⟨?_, rfl, ?_, rfl, ?_, rfl, ?_, ?_, ?_⟩
  · show (toRecords (dfHead result 50)).length ≤ 50
    simp [toRecords, dfHead, List.length_take]
  · exact toRecords_length result
  · simp [toRecords, dfHead, List.length_take]
  · rw [execTool_filter, hact]
    simp [ditem_of_dget _ _ _ hdf, ditem_of_dget _ _ _ hcond]
  · rw [execTool_aggregate, hact]
    simp [ditem_of_dget _ _ _ hdf, ditem_of_dget _ _ _ hg,
      ditem_of_dget _ _ _ hv]
  · intro code dfx h
    show dget (mkExecOutput C (C.py_exec code (dfCopy dfx))) "result" = _
    rw [h]
    rfl

/-- Witness for the amended C4 at a concrete store, argument map and
result table. -/
theorem table_cap_amended_witness :
    envDataLength (filterEnvelope dfAB) ≤ 50 ∧
    execTool trivCollab stActive "filter_data"
      [("conditions", JVal.str "c"), ("group_column", JVal.str "g"),
       ("value_column", JVal.str "v")] =
      Except.ok (filterEnvelope (trivCollab.filter_data dfAB (JVal.str "c"))) :=
  let h := table_cap_amended trivCollab stActive
    [("conditions", JVal.str "c"), ("group_column", JVal.str "g"),
     ("value_column", JVal.str "v")]
    dfAB "d1" dfAB (JVal.str "c") (JVal.str "g") (JVal.str "v")
    rfl rfl rfl rfl rfl
  ⟨h.1, h.2.2.2.2.2.2.1⟩

/-- Claim C7: with no active dataset, each of the five dataset tools
returns the envelope carrying only the no-dataset error string rather
than raising, and an unrecognized tool name yields an unknown-tool
error envelope, so the orchestration loop can continue. -/
theorem dispatch_soft_errors (C : Collaborators) (st : Store) (args : Env)
    (name : String) (hname : name ∉ knownToolNames) :
    execTool C { st with active_dataset_id := none } "filter_data" args =
      Except.ok noDatasetError ∧
    execTool C { st with active_dataset_id := none } "aggregate_data" args =
      Except.ok noDatasetError ∧
    execTool C { st with active_dataset_id := none } "describe_data" args =
      Except.ok noDatasetError ∧
    execTool C { st with active_dataset_id := none } "generate_plot" args =
      Except.ok noDatasetError ∧
    execTool C { st with active_dataset_id := none } "execute_pandas_code"
      args = Except.ok noDatasetError ∧
    noDatasetError = [("error", JVal.str "No dataset loaded.")] ∧
    execTool C st name args =
      Except.ok [("error", JVal.str ("Unknown tool: " ++ name))] := by
  refine ⟨rfl, rfl, rfl, rfl, rfl, rfl, ?_⟩
  simp only [knownToolNames, List.mem_cons, List.not_mem_nil, or_false,
    not_or] at hname
  obtain ⟨n1, n2, n3, n4, n5, n6⟩ := hname
  simp [execTool, n1, n2, n3, n4, n5, n6]

/-- Witness for C7 at a concrete store and an unrecognized tool name. -/
theorem dispatch_soft_errors_witness :
    execTool trivCollab stActive "bogus_tool" [] =
      Except.ok [("error", JVal.str ("Unknown tool: " ++ "bogus_tool"))] :=
  (dispatch_soft_errors trivCollab stActive [] "bogus_tool"
    (by decide)).2.2.2.2.2.2

/-! Folding lemmas for the chat loop. -/

theorem applyToolResult_spec (rd : ResponseData) (e : Env) :
    (applyToolResult rd e).plot_json = lww (chartOf e) rd.plot_json ∧
    (applyToolResult rd e).table_data =
      lww ((tableOf e).map Prod.fst) rd.table_data ∧
    (applyToolResult rd e).table_columns =
      lww ((tableOf e).map Prod.snd) rd.table_columns ∧
    (applyToolResult rd e).text = rd.text := by
  simp only [applyToolResult, chartOf, tableOf, lww]
  repeat' split
  all_goals simp_all

theorem foldl_applyToolResult_plot (es : List Env) (rd : ResponseData) :
    (es.foldl applyToolResult rd).plot_json =
      es.foldl (fun acc e => lww (chartOf e) acc) rd.plot_json := by
  induction es generalizing rd with
  | nil => rfl
  | cons e tl ih =>
    simp only [List.foldl_cons]
    rw [ih, (applyToolResult_spec rd e).1]

theorem foldl_applyToolResult_table_data (es : List Env) (rd : ResponseData) :
    (es.foldl applyToolResult rd).table_data =
      es.foldl (fun acc e => lww ((tableOf e).map Prod.fst) acc)
        rd.table_data := by
  induction es generalizing rd with
  | nil => rfl
  | cons e tl ih =>
    simp only [List.foldl_cons]
    rw [ih, (applyToolResult_spec rd e).2.1]

theorem foldl_applyToolResult_table_columns (es : List Env)
    (rd : ResponseData) :
    (es.foldl applyToolResult rd).table_columns =
      es.foldl (fun acc e => lww ((tableOf e).map Prod.snd) acc)
        rd.table_columns := by
  induction es generalizing rd with
  | nil => rfl
  | cons e tl ih =>
    simp only [List.foldl_cons]
    rw [ih, (applyToolResult_spec rd e).2.2.1]

theorem foldl_lww_none {β : Type} (f : Env → Option β) (post : List Env)
    (acc : Option β) (h : ∀ x ∈ post, f x = none) :
    post.foldl (fun a e => lww (f e) a) acc = acc := by
  induction post generalizing acc with
  | nil => rfl
  | cons e tl ih =>
    have h1 : f e = none := h e (List.mem_cons_self e tl)
    simp only [List.foldl_cons, h1, lww]
    exact ih acc (fun x hx => h x (List.mem_cons_of_mem e hx))

theorem runToolLoop_of_envs (C : Collaborators) (O : Oracle) (st : Store)
    (calls : List ToolCall) (es : List Env) (rd : ResponseData)
    (msgs : List Message)
    (h : calls.map (dispatchCall C O st) = es.map Except.ok) :
    (runToolLoop C O st rd msgs calls).1 = es.foldl applyToolResult rd ∧
    (runToolLoop C O st rd msgs calls).2.2 = none := by
  induction calls generalizing es rd msgs with
  | nil =>
    cases es with
    | nil => exact ⟨rfl, rfl⟩
    | cons e tl => simp at h
  | cons tc rest ih =>
    cases es with
    | nil => simp at h
    | cons e etl =>
      simp only [List.map_cons] at h
      injection h with h1 h2
      simp only [runToolLoop, h1, List.foldl_cons]
      exact ih etl (applyToolResult rd e) _ h2

/-- Claim C5: when one orchestration pass executes several tool calls,
the chart and the table folded into the final Response Envelope follow
a last-write-wins rule, independently for each field: whenever the pass
contains chart-yielding envelopes, the folded chart equals the chart of
the last one (so two charts yield the second, not a merge); whenever it
contains table-yielding envelopes, the folded table rows and columns
equal those of the last one; and for every pass, a `chat` invocation
whose tool calls dispatch to those envelopes returns the Response
Envelope holding exactly the folded chart and table fields. -/
theorem last_write_wins (rd : ResponseData) (es : List Env) :
    (∀ (pre post : List Env) (e : Env) (c : JVal),
      es = pre ++ e :: post → chartOf e = some c →
      (∀ x ∈ post, chartOf x = none) →
      (es.foldl applyToolResult rd).plot_json = some c) ∧
    (∀ (pre post : List Env) (e : Env) (p : JVal × JVal),
      es = pre ++ e :: post → tableOf e = some p →
      (∀ x ∈ post, tableOf x = none) →
      (es.foldl applyToolResult rd).table_data = some p.1 ∧
      (es.foldl applyToolResult rd).table_columns = some p.2) ∧
    (∀ (C : Collaborators) (O : Oracle) (key : String) (st : Store)
      (msg : String) (content : Option String) (calls : List ToolCall),
      key ≠ "" →
      O.firstCall (buildMessages C st msg) =
        Except.ok ⟨content, some calls⟩ →
      calls ≠ [] →
      calls.map (dispatchCall C O (appendUser st msg)) =
        es.map Except.ok →
      ∃ rdf, (chat C O key st msg).1 = Except.ok rdf ∧
        rdf.plot_json = (es.foldl applyToolResult rdInit).plot_json ∧
        rdf.table_data = (es.foldl applyToolResult rdInit).table_data ∧
        rdf.table_columns =
          (es.foldl applyToolResult rdInit).table_columns) := by
  refine ⟨?_, ?_, ?_⟩
  · intro pre post e c hsplit hc hpost
    subst hsplit
    rw [foldl_applyToolResult_plot, List.foldl_append, List.foldl_cons, hc,
      foldl_lww_none chartOf post _ hpost]
    rfl
  · intro pre post e p hsplit ht hpost
    subst hsplit
    constructor
    · rw [foldl_applyToolResult_table_data, List.foldl_append,
        List.foldl_cons, ht,
        foldl_lww_none (fun x => (tableOf x).map Prod.fst) post _
          (fun x hx => by simp [hpost x hx])]
      rfl
    · rw [foldl_applyToolResult_table_columns, List.foldl_append,
        List.foldl_cons, ht,
        foldl_lww_none (fun x => (tableOf x).map Prod.snd) post _
          (fun x hx => by simp [hpost x hx])]
      rfl
  · intro C O key st msg content calls hkey hfc hne hmap
    cases calls with
    | nil => exact absurd rfl hne
    | cons tc rest =>
      obtain ⟨hfold, hnone⟩ := runToolLoop_of_envs C O (appendUser st msg)
        (tc :: rest) es rdInit
        (buildMessages C st msg ++ [Message.assistantCalls (tc :: rest)])
        hmap
      rcases hx : runToolLoop C O (appendUser st msg) rdInit
          (buildMessages C st msg ++ [Message.assistantCalls (tc :: rest)])
          (tc :: rest) with ⟨x1, x2, x3⟩
      rw [hx] at hfold hnone
      dsimp only at hfold hnone
      subst hnone
      simp only [chat, if_neg hkey, hfc, hx]
      cases hsc : O.secondCall x2 with
      | error err =>
        refine ⟨_, rfl, ?_, ?_, ?_⟩
        · show x1.plot_json = _
          rw [hfold]
        · show x1.table_data = _
          rw [hfold]
        · show x1.table_columns = _
          rw [hfold]
      | ok c2 =>
        refine ⟨_, rfl, ?_, ?_, ?_⟩
        · show x1.plot_json = _
          rw [hfold]
        · show x1.table_data = _
          rw [hfold]
        · show x1.table_columns = _
          rw [hfold]

/-- Witness for C5: a chat pass issuing `generate_plot`, `filter_data`,
`generate_plot` — two tool calls each producing a chart — whose final
Response Envelope carries the second plot call's chart (last-write-wins
over the two charts) and the filter call's table. -/
theorem last_write_wins_witness :
    ([plotEnv "A", filterEnvelope dfAB, plotEnv "B"].foldl
        applyToolResult rdInit).plot_json = some (JVal.str "B") ∧
    ([plotEnv "A", filterEnvelope dfAB, plotEnv "B"].foldl
        applyToolResult rdInit).table_data =
      some (JVal.list (toRecords (dfHead dfAB 50))) ∧
    (∃ rdf, (chat trivCollab threeCallOracle "k" stActive "hi").1 =
        Except.ok rdf ∧
      rdf.plot_json = some (JVal.str "B") ∧
      rdf.table_data = some (JVal.list (toRecords (dfHead dfAB 50))) ∧
      rdf.table_columns =
        some (JVal.list [JVal.str "gene", JVal.str "expr"])) := by
  have h := last_write_wins rdInit
    [plotEnv "A", filterEnvelope dfAB, plotEnv "B"]
  have hp := h.1 [plotEnv "A", filterEnvelope dfAB] [] (plotEnv "B")
    (JVal.str "B") rfl rfl (by simp)
  have ht := h.2.1 [plotEnv "A"] [plotEnv "B"] (filterEnvelope dfAB)
    (JVal.list (toRecords (dfHead dfAB 50)),
     JVal.list [JVal.str "gene", JVal.str "expr"])
    rfl rfl
    (by intro x hx; rw [List.mem_singleton] at hx; subst hx; rfl)
  obtain ⟨rdf, hok, h1, h2, h3⟩ := h.2.2 trivCollab threeCallOracle "k"
    stActive "hi" none
    [⟨"id1", "generate_plot", "a1"⟩, ⟨"id2", "filter_data", "a2"⟩,
     ⟨"id3", "generate_plot", "a3"⟩]
    (by decide) rfl (by decide) rfl
  exact ⟨hp, ht.1, rdf, hok, h1.trans hp, h2.trans ht.1, h3.trans ht.2⟩

/-- Claim C6 counterexample: when the API key is unset, `chat` raises
the configuration error before recording anything, so that invocation
appends zero turns, not two. -/
theorem chat_key_cex :
    chat trivCollab trivOracle "" stActive "hi" =
      (Except.error mistralKeyMessage, stActive) ∧
    (chat trivCollab trivOracle "" stActive "hi").2.conversation_history =
      stActive.conversation_history ∧
    (chat trivCollab trivOracle "" stActive "hi").2.conversation_history.length = 0 ∧
    (0 : Nat) ≠ 2 :=
  ⟨rfl, rfl, rfl, by decide⟩

/-- Claim C6 (amended): provided the API key is configured (nonempty),
one `chat` invocation appends exactly two turns to the history — the
user turn first (recorded before any model call, so it survives every
oracle behavior, including a failing first call), then the assistant
turn, committed exactly once even when its text is an error message.
When the key is empty, `chat` raises before recording anything. -/
theorem chat_two_turns (C : Collaborators) (O : Oracle) (key : String)
    (st : Store) (msg : String) (hkey : key ≠ "") :
    ∃ rd, (chat C O key st msg).1 = Except.ok rd ∧
      (chat C O key st msg).2.conversation_history =
        st.conversation_history ++ [mkUserTurn msg, mkAssistantTurn rd] := by
  simp only [chat, if_neg hkey]
  refine ⟨_, rfl, ?_⟩
  simp [appendUser, List.append_assoc]

/-- Witness for the amended C6 at a concrete key, store and oracle. -/
theorem chat_two_turns_witness :
    ∃ rd, (chat trivCollab trivOracle "k" stActive "hi").1 =
        Except.ok rd ∧
      (chat trivCollab trivOracle "k" stActive "hi").2.conversation_history =
        stActive.conversation_history ++ [mkUserTurn "hi",
          mkAssistantTurn rd] :=
  chat_two_turns trivCollab trivOracle "k" stActive "hi" (by decide)

theorem execute_code_refs_out (C : Collaborators)
    (σ : DataFrame → DataFrame × ExecOutcome) (heap : Heap) (ref : Nat) :
    (execute_code_refs C σ heap ref).2 =
      mkExecOutput C (σ (heap.getD ref default)).2 := by
  simp only [execute_code_refs, getD_concat_self]

theorem execute_code_refs_heap (C : Collaborators)
    (σ : DataFrame → DataFrame × ExecOutcome) (heap : Heap) (ref : Nat) :
    (execute_code_refs C σ heap ref).1 =
      heap ++ [(σ (heap.getD ref default)).1] := by
  simp only [execute_code_refs, getD_concat_self, set_concat_self]

/-- Claim C8: dispatch is idempotent with respect to all state other
than reading the active dataset: threading the store through
`_execute_tool` returns it unchanged and a second identical dispatch
yields the same output; under reference semantics, even a mutating
sandbox script leaves the store and every stored dataframe unchanged,
so rerunning `execute_pandas_code` on the resulting heap yields the
same envelope. -/
theorem dispatch_idempotent (C : Collaborators) (st : Store) (name : String)
    (args : Env) (σ : DataFrame → DataFrame × ExecOutcome) (rs : RefStore)
    (heap : Heap) (hwf : refsWF rs heap) :
    (execToolS C st name args).2 = st ∧
    (execToolS C (execToolS C st name args).2 name args).1 =
      (execToolS C st name args).1 ∧
    (execToolRefs C σ rs heap args).1 = rs ∧
    (execToolRefs C σ (execToolRefs C σ rs heap args).1
        (execToolRefs C σ rs heap args).2.1 args).2.2 =
      (execToolRefs C σ rs heap args).2.2 := by
  refine ⟨rfl, rfl, ?_, ?_⟩
  · unfold execToolRefs
    repeat' split
    all_goals rfl
  · cases hact : rs.active_dataset_id with
    | none => simp [execToolRefs, hact]
    | some fid =>
      by_cases hfe : fid.isEmpty = true
      · simp [execToolRefs, hact, hfe]
      · cases hrr : dget rs.frame_refs fid with
        | none => simp [execToolRefs, hact, hfe, hrr]
        | some r =>
          cases hcode : dget args "code" with
          | none => simp [execToolRefs, hact, hfe, hrr, hcode]
          | some cv =>
            have hr : r < heap.length := hwf fid r hrr
            simp only [execToolRefs, hact, if_neg hfe, hrr, hcode]
            rw [execute_code_refs_heap, execute_code_refs_out,
              execute_code_refs_out, getD_append_left2 heap r hr]

/-- Witness for C8 at a concrete store, heap and mutating script. -/
theorem dispatch_idempotent_witness :
    (execToolS trivCollab stActive "describe_data" []).2 = stActive ∧
    (execToolRefs trivCollab wipeScript rsOne [dfAB]
      [("code", JVal.str "x")]).1 = rsOne :=
  have h := dispatch_idempotent trivCollab stActive "describe_data" []
    wipeScript rsOne [dfAB] (by
      intro fid r hfr
      by_cases hb : fid = "d1"
      · subst hb
        simp [rsOne, dget, List.lookup] at hfr
        simp only [List.length_cons, List.length_nil]
        omega
      · have hbf : (fid == "d1") = false := by simp [hb]
        simp [rsOne, dget, List.lookup, hbf] at hfr)
  ⟨h.1, h.2.2.1⟩

/-- Claim C9: the prompt built by `chat` contains the system message,
then only the most recent 20 history turns (their count is the minimum
of 20 and the history length, and they form a suffix of the history),
then the new user message; the history-listing operation returns the
full retained history, in order. -/
theorem prompt_window (C : Collaborators) (st : Store) (msg : String) :
    buildMessages C st msg =
      Message.plain "system" (build_system_prompt C st)
        :: (lastN historyWindow st.conversation_history).map
            (fun h => Message.plain h.role h.content)
        ++ [Message.plain "user" msg] ∧
    (lastN historyWindow st.conversation_history).length =
      min historyWindow st.conversation_history.length ∧
    lastN historyWindow st.conversation_history <:+
      st.conversation_history ∧
    get_history st = st.conversation_history.map
      (fun h => ⟨h.role, h.content, h.plot_json, h.table_data,
        h.table_columns⟩) ∧
    (get_history st).length = st.conversation_history.length := by
  refine ⟨rfl, ?_, List.drop_suffix _ _, rfl, by simp [get_history]⟩
  simp only [lastN, historyWindow, List.length_drop]
  omega

/-- Claim C10: dispatching `execute_pandas_code` leaves the stored
datasets, the active dataset reference and the metadata unchanged: the
store threaded through the dispatcher returns as it was, and under
reference semantics the script runs against a freshly allocated copy of
the active table, so the heap restricted to the pre-existing objects —
in particular the dataframe the store references — is untouched for
every script. -/
theorem sandbox_frame (C : Collaborators)
    (σ : DataFrame → DataFrame × ExecOutcome) (rs : RefStore) (heap : Heap)
    (args : Env) :
    (execToolRefs C σ rs heap args).1 = rs ∧
    ((execToolRefs C σ rs heap args).2.1).take heap.length = heap ∧
    (∀ (st : Store) (args2 : Env),
      (execToolS C st "execute_pandas_code" args2).2 = st) := by
  refine ⟨?_, ?_, fun _ _ => rfl⟩
  · unfold execToolRefs
    repeat' split
    all_goals rfl
  · cases hact : rs.active_dataset_id with
    | none => simp [execToolRefs, hact, List.take_length]
    | some fid =>
      by_cases hfe : fid.isEmpty = true
      · simp [execToolRefs, hact, hfe, List.take_length]
      · cases hrr : dget rs.frame_refs fid with
        | none => simp [execToolRefs, hact, hfe, hrr, List.take_length]
        | some r =>
          cases hcode : dget args "code" with
          | none => simp [execToolRefs, hact, hfe, hrr, hcode,
              List.take_length]
          | some cv =>
            simp [execToolRefs, execute_code_refs, hact, hfe, hrr, hcode,
              set_concat_self, take_concat_self]

end LabCoPilot
